import Mathlib

/-!
Shallow embedding of the ynab-sync repository (src/ynab_import): the URL
builder and HTTP helpers (n26.py, class Api), the N26 token lifecycle
(class N26Api), the YNAB client (class YNABApi), the transaction
normalizer (convert_n26_transaction), the sync orchestrator (main), and
the two CSV readers (dkb.py and ingdiba.py).

Python dictionaries with string keys are modelled as association lists
(List (String × v)) in insertion order; dictionary lookup is List.lookup.
Python runtime values that can flow into query parameters and transaction
fields are modelled by the inductive PyVal.  Python floats carrying exact
currency and time values are modelled by rationals.  Fallible Python code
is modelled in Except PyRuntimeError.
-/

namespace YnabSync

/-- A Python value as it appears in query-parameter dictionaries and
transaction dictionaries: None, a string, an integer, or a boolean. -/
inductive PyVal
  | none
  | str (s : String)
  | int (n : Int)
  | bool (b : Bool)
  deriving DecidableEq

/-- Python truthiness test `not v` on a PyVal: None, the empty string,
zero and False are falsy. -/
def PyVal.falsy : PyVal → Bool
  | .none => true
  | .str s => s == ""
  | .int n => n == 0
  | .bool b => !b

/-! Python string primitives used by the embedded code, modelled
structurally over the character list of the string so that they are
executable by the kernel. -/

/-- Python str.isspace characters relevant to str.strip. -/
def isPySpace (c : Char) : Bool :=
  c = ' ' ∨ c = '\t' ∨ c = '\n' ∨ c = '\x0d' ∨ c = '\x0b' ∨ c = '\x0c'

/-- Python str.strip with no argument: remove leading and trailing
whitespace. -/
def pyStrip (s : String) : String :=
  ⟨((s.data.dropWhile isPySpace).reverse.dropWhile isPySpace).reverse⟩

/-- Replacement loop of Python str.replace over a character list, with a
fuel argument that starts at the length of the subject and makes the
recursion structural; the fuel never runs out on that start value
because every step consumes at least one subject character. -/
def pyReplaceAux (pat rep : List Char) : Nat → List Char → List Char
  | 0, s => s
  | _ + 1, [] => []
  | n + 1, c :: cs =>
    if pat.isPrefixOf (c :: cs) then
      rep ++ pyReplaceAux pat rep n ((c :: cs).drop pat.length)
    else c :: pyReplaceAux pat rep n cs

/-- Python str.replace: replace every occurrence of pat by rep, scanning
left to right. -/
def pyReplace (s pat rep : String) : String :=
  if pat.data = [] then s
  else ⟨pyReplaceAux pat.data rep.data s.data.length s.data⟩

/-- Python str.startswith. -/
def pyStartsWith (s pre : String) : Bool :=
  pre.data.isPrefixOf s.data

/-- Lexicographic comparison of character lists by code point: the order
Python uses when sorting strings. -/
def charListLe : List Char → List Char → Bool
  | [], _ => true
  | _ :: _, [] => false
  | a :: as, b :: bs =>
    if a < b then true
    else if b < a then false
    else charListLe as bs

/-- Python string comparison a ≤ b. -/
def pyStrLe (a b : String) : Bool := charListLe a.data b.data

/-- Python string interpolation of a PyVal, as in the f-string of
Api.create_request_url. -/
def PyVal.fstr : PyVal → String
  | .none => "None"
  | .str s => s
  | .int n => toString n
  | .bool b => if b then "True" else "False"

/-- The loop of Api.create_request_url (n26.py lines 45-57): iterate over
the key-sorted parameter items, skip falsy values, and append the first
kept parameter with a question mark and every later one with an
ampersand.  The Bool argument is the first_param flag. -/
def appendParams : String → Bool → List (String × PyVal) → String
  | url, _, [] => url
  | url, firstParam, (k, v) :: rest =>
    if v.falsy then
      appendParams url firstParam rest
    else
      appendParams (url ++ (if firstParam then "?" else "&") ++ k ++ "=" ++ v.fstr)
        false rest

/-- The key order of sorted(params.items(), key=entry 0): ascending by
parameter name. -/
def paramLE (a b : String × PyVal) : Prop := pyStrLe a.1 b.1 = true

instance : DecidableRel paramLE :=
  fun a b => instDecidableEqBool (pyStrLe a.1 b.1) true

/-- Api.create_request_url (n26.py lines 43-59).  The params argument of
the Python function defaults to None and the body first tests the
truthiness of params, so None and the empty dictionary both leave the
URL unchanged.  sorted(params.items(), key=entry 0) sorts the items of a
dictionary by key; dictionary keys are pairwise distinct, so every sort
by key agrees and the sort is modelled by insertion sort under
paramLE. -/
def create_request_url (url : String) (params : Option (List (String × PyVal))) :
    String :=
  match params with
  | Option.none => url
  | Option.some ps =>
    if ps.isEmpty then url
    else appendParams url true (List.insertionSort paramLE ps)

/-- Rendering of one kept parameter entry as key=value. -/
def kvString (kv : String × PyVal) : String := kv.1 ++ "=" ++ kv.2.fstr

/-- Modelled from the spec wording for the query string shape: the first
appended parameter is preceded by a question mark and each later one by
an ampersand; no parameters leave the URL unchanged. -/
def querySuffix : List String → String
  | [] => ""
  | p :: ps => "?" ++ p ++ String.join (ps.map (fun q => "&" ++ q))

/-- YNABApi.create_transactions (n26.py lines 343-355) builds its request
body by iterating over the given transactions in order and, for each
one, rebuilding the dictionary keeping exactly the items whose value is
not None.  This is the body-construction loop; the HTTP POST itself is an
external collaborator. -/
def create_transactions_body :
    List (List (String × PyVal)) → List (List (String × PyVal))
  | [] => []
  | t :: ts =>
    t.filter (fun kv => kv.2 ≠ PyVal.none) :: create_transactions_body ts

instance {ε α : Type} [DecidableEq ε] [DecidableEq α] : DecidableEq (Except ε α) :=
  fun x y =>
    match x, y with
    | Except.error a, Except.error b =>
      if h : a = b then Decidable.isTrue (congrArg Except.error h)
      else Decidable.isFalse (fun k => h (Except.error.inj k))
    | Except.error _, Except.ok _ => Decidable.isFalse (fun k => Except.noConfusion k)
    | Except.ok _, Except.error _ => Decidable.isFalse (fun k => Except.noConfusion k)
    | Except.ok a, Except.ok b =>
      if h : a = b then Decidable.isTrue (congrArg Except.ok h)
      else Decidable.isFalse (fun k => h (Except.ok.inj k))

/-- Runtime faults raised by the Python code of this repository. -/
inductive PyRuntimeError
  | indexError
  | keyError
  | attributeError
  | invalidOperation
  deriving DecidableEq

/-! ### N26 token lifecycle (n26.py, class N26Api) -/

/-- The token_data dictionary of N26Api.  The Python code stores the
expiration time as a float of seconds since the epoch (time.time() plus
expires_in); it is modelled exactly as a rational.  A key missing from
the dictionary is modelled as Option.none. -/
structure TokenData where
  expiration_time : Option ℚ
  access_token : Option String
  refresh_token : Option String
  deriving DecidableEq

/-- N26Api.validate_token (n26.py lines 228-236), with the current clock
reading time.time() passed explicitly as now.  Returns False when the
expiration_time key is missing, False when now is at or past the stored
expiry, and otherwise the truthiness of the access_token entry (present
and a non-empty string). -/
def validate_token (now : ℚ) (token_data : TokenData) : Bool :=
  match token_data.expiration_time with
  | Option.none => false
  | Option.some e =>
    if now ≥ e then false
    else
      match token_data.access_token with
      | Option.none => false
      | Option.some s => s != ""

/-! ### Transaction normalizer (n26.py, convert_n26_transaction) -/

/-- The fields of an N26 transaction dictionary read by the normalizer
and the orchestrator.  The amount is an exact fractional currency value;
visibleTS is in milliseconds since the epoch.  Fields that may be absent
from the dictionary are Options. -/
structure N26Transaction where
  id : String
  visibleTS : Int
  amount : ℚ
  category : Option String
  referenceText : Option String
  merchantName : Option String
  merchantCity : Option String
  deriving DecidableEq

/-- The YNAB transaction shape built by the normalizer (the
YNABTransaction TypedDict of n26.py lines 243-258). -/
structure YNABTransaction where
  account_id : String
  date : String
  amount : Int
  payee_id : Option String
  payee_name : Option String
  category_id : Option String
  memo : Option String
  cleared : Option String
  approved : Option Bool
  flag_color : Option String
  import_id : Option String
  deriving DecidableEq

/-- Two-digit zero padding of a day or month number. -/
def pad2 (n : Int) : String :=
  if n < 10 then "0" ++ toString n else toString n

/-- Calendar date (year, month, day) of a day count relative to
1970-01-01, proleptic Gregorian (the civil-from-days algorithm). -/
def civilFromDays (days : Int) : Int × Int × Int :=
  let z := days + 719468
  let era := z.fdiv 146097
  let doe := z.fmod 146097
  let yoe := (doe - doe.fdiv 1460 + doe.fdiv 36524 - doe.fdiv 146096).fdiv 365
  let y := yoe + era * 400
  let doy := doe - (365 * yoe + yoe.fdiv 4 - yoe.fdiv 100)
  let mp := (5 * doy + 2).fdiv 153
  let d := doy - (153 * mp + 2).fdiv 5 + 1
  let m := mp + (if mp < 10 then 3 else -9)
  (y + (if m ≤ 2 then 1 else 0), m, d)

/-- datetime.datetime.fromtimestamp(ts / 1000).strftime of n26.py lines
388-390: the visibility timestamp in milliseconds converted to a
calendar date and formatted YYYY-MM-DD.  The observer time zone of the
Python call is environment state; it is modelled as UTC. -/
def dateOfTimestampMs (ts : Int) : String :=
  let c := civilFromDays (ts.fdiv 86400000)
  toString c.1 ++ "-" ++ pad2 c.2.1 ++ "-" ++ pad2 c.2.2

/-- convert_n26_transaction (n26.py lines 358-401).  The ynab_payees
argument is accepted and never used, as in the source.  The category is
the three-step chained lookup guarded by the membership tests of lines
378-384; the memo preference chain is lines 367-373. -/
def convert_n26_transaction (account_id : String)
    (ynab_payees : List (String × String))
    (categories ynab_categories n26_categories : List (String × String))
    (transaction : N26Transaction) : YNABTransaction :=
  let memo : Option String :=
    match transaction.referenceText with
    | Option.some r => Option.some r
    | Option.none =>
      match transaction.merchantName with
      | Option.some nm =>
        Option.some (match transaction.merchantCity with
          | Option.some city => nm ++ " " ++ city
          | Option.none => nm)
      | Option.none => Option.none
  let category : Option String :=
    match transaction.category with
    | Option.none => Option.none
    | Option.some c =>
      match n26_categories.lookup c with
      | Option.none => Option.none
      | Option.some cname =>
        match categories.lookup cname with
        | Option.none => Option.none
        | Option.some gname => ynab_categories.lookup gname
  { account_id := account_id
    date := dateOfTimestampMs transaction.visibleTS
    amount := Int.ceil (transaction.amount * 1000)
    payee_id := Option.none
    payee_name := Option.none
    category_id := category
    memo := memo
    cleared := Option.some "cleared"
    approved := Option.some category.isSome
    flag_color := Option.none
    import_id := Option.some transaction.id }

/-! ### Sync orchestrator (n26.py, main) -/

/-- The candidate-new computation of main (n26.py lines 497-509): walk the
fetched N26 transactions in order and keep the normalized form of each
one whose id does not occur among the import_id values of the existing
YNAB transactions.  The import-id list holds Option String because
import_id is an optional field of the fetched YNAB transactions. -/
def new_transactions (ynab_account_id : String)
    (ynab_payees : List (String × String))
    (categories ynab_categories n26_categories : List (String × String))
    (ynab_transations_import_ids : List (Option String)) :
    List N26Transaction → List YNABTransaction
  | [] => []
  | t :: ts =>
    if Option.some t.id ∈ ynab_transations_import_ids then
      new_transactions ynab_account_id ynab_payees categories ynab_categories
        n26_categories ynab_transations_import_ids ts
    else
      convert_n26_transaction ynab_account_id ynab_payees categories
          ynab_categories n26_categories t ::
        new_transactions ynab_account_id ynab_payees categories ynab_categories
          n26_categories ynab_transations_import_ids ts

/-- A YNAB budget record as used by the id validation of main. -/
structure YNABBudget where
  id : String
  name : String
  deriving DecidableEq

/-- A YNAB account record as used by the id validation of main. -/
structure YNABAccount where
  id : String
  name : String
  deriving DecidableEq

/-- The console output of the budget-id check of main (n26.py lines
433-441): nothing when the id is known, otherwise the error line, a
blank line, a prompt line and one option line per budget.  Either way
execution falls through to the next step. -/
def budget_check_output (ynab_budgets : List YNABBudget)
    (ynab_budget_id : String) : List String :=
  if ynab_budget_id ∈ ynab_budgets.map (fun x => x.id) then []
  else
    ("ERROR: " ++ ynab_budget_id ++ " is not correct YNAB budget id.") :: "" ::
      "Please select one of:" ::
      ynab_budgets.map (fun b => " - " ++ b.name ++ " - " ++ b.id)

/-- The console output of the account-id check of main (n26.py lines
443-453), same shape as the budget-id check. -/
def account_check_output (ynab_accounts : List YNABAccount)
    (ynab_account_id : String) : List String :=
  if ynab_account_id ∈ ynab_accounts.map (fun x => x.id) then []
  else
    ("ERROR: " ++ ynab_account_id ++ " is not correct YNAB account id.") :: "" ::
      "Please select one of:" ::
      ynab_accounts.map (fun a => " - " ++ a.name ++ " - " ++ a.id)

/-- The validation segment of main (n26.py lines 433-454): run both id
checks, whose console output is printed either way, then select the
account record by filtering the account list and taking element zero.
The first component is the console output already printed when line 454
runs; the second is the outcome of line 454: when the account id matches
no account, the subscript on the empty filter result raises IndexError,
which aborts the run after the output was printed. -/
def main_validate_and_select (ynab_budgets : List YNABBudget)
    (ynab_accounts : List YNABAccount)
    (ynab_budget_id ynab_account_id : String) :
    List String × Except PyRuntimeError YNABAccount :=
  let output := budget_check_output ynab_budgets ynab_budget_id ++
    account_check_output ynab_accounts ynab_account_id
  match ynab_accounts.filter (fun i => i.id == ynab_account_id) with
  | [] => (output, Except.error PyRuntimeError.indexError)
  | a :: _ => (output, Except.ok a)

/-! ### CSV readers (dkb.py and ingdiba.py)

Both readers scan the input stream line by line until a line starting
with the bank header marker, copy that line and every later line into a
fresh buffer, and hand the buffer to csv.DictReader with a
semicolon-delimited, double-quoted dialect.  The stream is modelled as
the list of its lines without terminators.  csv.DictReader is the
standard library: it is modelled for single-line records as splitting
each line on unquoted semicolons, stripping minimal quoting, and zipping
the remaining rows with the field names of the header row. -/

/-- Split the characters of one CSV line on the delimiter, treating the
double-quote character as toggling a quoted region whose delimiters are
not field separators; quote characters themselves are stripped.  The
Bool is the inside-quotes state and the String the current field. -/
def splitCSVLine (delim : Char) : List Char → Bool → String → List String
  | [], _, acc => [acc]
  | c :: cs, inQ, acc =>
    if c = '"' then splitCSVLine delim cs (!inQ) acc
    else if c = delim ∧ ¬inQ then acc :: splitCSVLine delim cs inQ ""
    else splitCSVLine delim cs inQ (acc.push c)

/-- Parse one CSV line into its fields. -/
def parseCSVRecord (delim : Char) (line : String) : List String :=
  splitCSVLine delim line.data false ""

/-- csv.DictReader over a buffer of lines: the first line gives the field
names, every later line becomes a record keyed by them.  An empty buffer
has no header row and yields no records. -/
def dictReader (delim : Char) : List String → List (List (String × String))
  | [] => []
  | header :: rows =>
    let fields := parseCSVRecord delim header
    rows.map (fun r => fields.zip (parseCSVRecord delim r))

/-- Python dictionary subscripting record[k]: KeyError when absent. -/
def recordGet (record : List (String × String)) (k : String) :
    Except PyRuntimeError String :=
  match record.lookup k with
  | Option.none => Except.error PyRuntimeError.keyError
  | Option.some v => Except.ok v

/-- Value of a digit character. -/
def digitVal (c : Char) : Nat := c.toNat - 48

/-- Natural number denoted by a digit string. -/
def natOfDigits (l : List Char) : Nat :=
  l.foldl (fun acc c => acc * 10 + digitVal c) 0

/-- Split a character list at the first occurrence of c; the second
component is present when c occurred. -/
def splitOnChar (c : Char) : List Char → List Char × Option (List Char)
  | [] => ([], Option.none)
  | x :: xs =>
    if x = c then ([], Option.some xs)
    else
      let r := splitOnChar c xs
      (x :: r.1, r.2)

/-- decimal.Decimal applied to a string, restricted to the plain forms
occurring in bank exports: optional surrounding whitespace, optional
sign, digits with at most one decimal point and at least one digit.
Any other string (the empty string included) raises InvalidOperation,
modelled as Option.none. -/
def parseDecimal (s : String) : Option ℚ :=
  let t := pyStrip s
  let signAndDigits : ℚ × List Char :=
    match t.data with
    | '-' :: r => (-1, r)
    | '+' :: r => (1, r)
    | r => (1, r)
  let body := signAndDigits.2
  let parts := splitOnChar '.' body
  let intPart := parts.1
  match parts.2 with
  | Option.none =>
    if intPart ≠ [] ∧ intPart.all Char.isDigit then
      Option.some (signAndDigits.1 * natOfDigits intPart)
    else Option.none
  | Option.some fracPart =>
    if (intPart ≠ [] ∨ fracPart ≠ []) ∧ intPart.all Char.isDigit ∧
        fracPart.all Char.isDigit ∧ ¬fracPart.contains '.' then
      Option.some (signAndDigits.1 *
        ((natOfDigits intPart : ℚ) +
          (natOfDigits fracPart : ℚ) / (10 : ℚ) ^ fracPart.length))
    else Option.none

/-- The intermediate transaction record produced by the CSV readers:
keys Date, Payee, Memo and at most one of Outflow and Inflow. -/
structure CSVTransaction where
  Date : String
  Payee : String
  Memo : String
  Outflow : Option ℚ
  Inflow : Option ℚ
  deriving DecidableEq

/-- The header scan of dkb.py read_transactions (lines 17-26): the
filtered buffer holds the first line starting with the DKB marker and
every line after it, or nothing when no line matches. -/
def dkb_filter_lines : List String → List String
  | [] => []
  | l :: ls =>
    if pyStartsWith l "\"Buchungstag" then l :: ls else dkb_filter_lines ls

/-- The record loop body of dkb.py read_transactions (lines 29-43).
A record whose amount field is blank after stripping is skipped
(Option.none).  Otherwise the code reads the date, payee and memo
fields, parses the normalized amount text as a Decimal, and then
executes transaction.Outflow = -amount or transaction.Inflow = amount:
attribute assignment on a dict value, which raises AttributeError in
both branches, so no record with a parsed amount is ever produced. -/
def dkb_process_record (record : List (String × String)) :
    Except PyRuntimeError (Option CSVTransaction) := do
  let betrag ← recordGet record "Betrag (EUR)"
  if pyStrip betrag = "" then
    return Option.none
  let _wert ← recordGet record "Wertstellung"
  let _payee ← recordGet record "Auftraggeber / Begünstigter"
  let _memo ← recordGet record "Verwendungszweck"
  match parseDecimal (pyReplace (pyReplace betrag "." "") "," ".") with
  | Option.none => Except.error PyRuntimeError.invalidOperation
  | Option.some amount =>
    if amount < 0 then Except.error PyRuntimeError.attributeError
    else Except.error PyRuntimeError.attributeError

/-- The record loop of dkb.py read_transactions: records processed in
order, the first raised error aborting the whole call. -/
def dkb_process :
    List (List (String × String)) → Except PyRuntimeError (List CSVTransaction)
  | [] => Except.ok []
  | r :: rs => do
    let t? ← dkb_process_record r
    let rest ← dkb_process rs
    match t? with
    | Option.none => Except.ok rest
    | Option.some t => Except.ok (t :: rest)

/-- dkb.py read_transactions (lines 14-45) on the lines of the export
file: header scan, then DictReader, then the record loop. -/
def dkb_read_transactions (lines : List String) :
    Except PyRuntimeError (List CSVTransaction) :=
  dkb_process (dictReader ';' (dkb_filter_lines lines))

/-- The header scan of ingdiba.py read_transactions (lines 20-29): the
ING marker matches with or without a leading quote. -/
def ing_filter_lines : List String → List String
  | [] => []
  | l :: ls =>
    if pyStartsWith l "\"Buchung" || pyStartsWith l "Buchung" then l :: ls
    else ing_filter_lines ls

/-- The record loop body of ingdiba.py read_transactions (lines 33-43).
There is no blank-amount skip: a blank amount field reaches
decimal.Decimal and raises InvalidOperation.  A negative amount is
stored negated under Outflow, a non-negative one under Inflow. -/
def ing_process_record (record : List (String × String)) :
    Except PyRuntimeError CSVTransaction := do
  let date ← recordGet record "Buchung"
  let payee ← recordGet record "Auftraggeber/Empfänger"
  let memo ← recordGet record "Verwendungszweck"
  let betrag ← recordGet record "Betrag"
  match parseDecimal (pyReplace (pyReplace betrag "." "") "," ".") with
  | Option.none => Except.error PyRuntimeError.invalidOperation
  | Option.some amount =>
    if amount < 0 then
      Except.ok { Date := pyReplace date "." "/", Payee := payee, Memo := memo,
                  Outflow := Option.some (-amount), Inflow := Option.none }
    else
      Except.ok { Date := pyReplace date "." "/", Payee := payee, Memo := memo,
                  Outflow := Option.none, Inflow := Option.some amount }

/-- The record loop of ingdiba.py read_transactions. -/
def ing_process :
    List (List (String × String)) → Except PyRuntimeError (List CSVTransaction)
  | [] => Except.ok []
  | r :: rs => do
    let t ← ing_process_record r
    let rest ← ing_process rs
    Except.ok (t :: rest)

/-- ingdiba.py read_transactions (lines 19-45) on the lines of the
export file. -/
def ing_read_transactions (lines : List String) :
    Except PyRuntimeError (List CSVTransaction) :=
  ing_process (dictReader ';' (ing_filter_lines lines))

/-! ### Helper lemmas -/

theorem charListLe_total : ∀ a b : List Char, charListLe a b = true ∨ charListLe b a = true
  | [], _ => Or.inl rfl
  | _ :: _, [] => Or.inr rfl
  | a :: as, b :: bs => by
    by_cases h1 : a < b
    · exact Or.inl (by simp [charListLe, h1])
    · by_cases h2 : b < a
      · exact Or.inr (by simp [charListLe, h2])
      · have ih := charListLe_total as bs
        simpa [charListLe, h1, h2] using ih

theorem charListLe_trans : ∀ a b c : List Char,
    charListLe a b = true → charListLe b c = true → charListLe a c = true
  | [], _, _ => by simp [charListLe]
  | _ :: _, [], _ => by simp [charListLe]
  | _ :: _, _ :: _, [] => by simp [charListLe]
  | a :: as, b :: bs, c :: cs => by
    intro h1 h2
    by_cases hab : a < b
    · by_cases hbc : b < c
      · simp [charListLe, lt_trans hab hbc]
      · by_cases hcb : c < b
        · simp [charListLe, hbc, hcb] at h2
        · have hbc' : b = c := le_antisymm (not_lt.mp hcb) (not_lt.mp hbc)
          subst hbc'
          simp [charListLe, hab]
    · by_cases hba : b < a
      · simp [charListLe, hab, hba] at h1
      · have hab' : a = b := le_antisymm (not_lt.mp hba) (not_lt.mp hab)
        subst hab'
        simp only [charListLe, lt_irrefl, if_false] at h1
        by_cases hac : a < c
        · simp [charListLe, hac]
        · by_cases hca : c < a
          · simp [charListLe, hac, hca] at h2
          · have hac' : a = c := le_antisymm (not_lt.mp hca) (not_lt.mp hac)
            subst hac'
            simp only [charListLe, lt_irrefl, if_false] at h2 ⊢
            exact charListLe_trans as bs cs h1 h2

theorem charListLe_antisymm : ∀ a b : List Char,
    charListLe a b = true → charListLe b a = true → a = b
  | [], [] => by intro _ _; rfl
  | [], _ :: _ => by simp [charListLe]
  | _ :: _, [] => by simp [charListLe]
  | a :: as, b :: bs => by
    intro h1 h2
    by_cases hab : a < b
    · simp [charListLe, hab, asymm hab] at h2
    · by_cases hba : b < a
      · simp [charListLe, hab, hba] at h1
      · have hab' : a = b := le_antisymm (not_lt.mp hba) (not_lt.mp hab)
        subst hab'
        simp only [charListLe, lt_irrefl, if_false] at h1 h2
        rw [charListLe_antisymm as bs h1 h2]

instance : IsTotal (String × PyVal) paramLE :=
  ⟨fun a b => charListLe_total a.1.data b.1.data⟩

instance : IsTrans (String × PyVal) paramLE :=
  ⟨fun _ _ _ h1 h2 => charListLe_trans _ _ _ h1 h2⟩

theorem pyStrLe_antisymm {a b : String} (h1 : pyStrLe a b = true)
    (h2 : pyStrLe b a = true) : a = b := by
  cases a; cases b
  exact congrArg String.mk (charListLe_antisymm _ _ h1 h2)

theorem string_foldl_append : ∀ (l : List String) (a : String),
    l.foldl (fun r s => r ++ s) a = a ++ l.foldl (fun r s => r ++ s) ""
  | [], a => by simp
  | s :: t, a => by
    simp only [List.foldl_cons]
    rw [string_foldl_append t (a ++ s), string_foldl_append t ("" ++ s)]
    simp [String.append_assoc]

theorem string_join_cons (s : String) (l : List String) :
    String.join (s :: l) = s ++ String.join l := by
  simp only [String.join, List.foldl_cons]
  rw [string_foldl_append l ("" ++ s)]
  simp

theorem appendParams_false : ∀ (l : List (String × PyVal)) (url : String),
    appendParams url false l =
      url ++ String.join ((l.filter (fun kv => !kv.2.falsy)).map
        (fun kv => "&" ++ kvString kv))
  | [], url => by simp [appendParams, String.join]
  | (k, v) :: rest, url => by
    by_cases hv : v.falsy
    · simp only [appendParams, hv, if_true, List.filter_cons,
        Bool.not_true, ite_false]
      exact appendParams_false rest url
    · have hv' : v.falsy = false := by simpa using hv
      simp only [appendParams, hv', Bool.false_eq_true, if_false,
        List.filter_cons, Bool.not_false, ite_true, List.map_cons]
      rw [appendParams_false rest, string_join_cons]
      simp [kvString, String.append_assoc]

theorem appendParams_true : ∀ (l : List (String × PyVal)) (url : String),
    appendParams url true l =
      url ++ querySuffix ((l.filter (fun kv => !kv.2.falsy)).map kvString)
  | [], url => by simp [appendParams, querySuffix]
  | (k, v) :: rest, url => by
    by_cases hv : v.falsy
    · simp only [appendParams, hv, if_true, List.filter_cons,
        Bool.not_true, ite_false]
      exact appendParams_true rest url
    · have hv' : v.falsy = false := by simpa using hv
      simp only [appendParams, hv', Bool.false_eq_true, if_false,
        List.filter_cons, Bool.not_false, ite_true, List.map_cons,
        querySuffix]
      rw [appendParams_false rest]
      simp [kvString, String.append_assoc, Function.comp_def]

theorem pairwise_strict_of_sorted {l : List (String × PyVal)}
    (hnd : (l.map Prod.fst).Nodup) :
    (List.insertionSort paramLE l).Pairwise
      (fun a b => paramLE a b ∧ a.1 ≠ b.1) := by
  have h1 : (List.insertionSort paramLE l).Pairwise paramLE :=
    List.sorted_insertionSort paramLE l
  have hpm : List.Perm ((List.insertionSort paramLE l).map Prod.fst)
      (l.map Prod.fst) := (List.perm_insertionSort paramLE l).map Prod.fst
  have h2 : (List.insertionSort paramLE l).Pairwise (fun a b => a.1 ≠ b.1) :=
    (List.pairwise_map).mp (hpm.nodup_iff.mpr hnd)
  exact h1.and h2

theorem insertionSort_eq_of_perm {ps qs : List (String × PyVal)}
    (hperm : ps.Perm qs) (hnd : (ps.map Prod.fst).Nodup) :
    List.insertionSort paramLE ps = List.insertionSort paramLE qs := by
  haveI : IsAntisymm (String × PyVal)
      (fun a b => paramLE a b ∧ a.1 ≠ b.1) :=
    ⟨fun a b h1 h2 => absurd (pyStrLe_antisymm h1.1 h2.1) h1.2⟩
  have hndq : (qs.map Prod.fst).Nodup := (hperm.map Prod.fst).nodup_iff.mp hnd
  have hp : List.Perm (List.insertionSort paramLE ps)
      (List.insertionSort paramLE qs) :=
    ((List.perm_insertionSort paramLE ps).trans hperm).trans
      (List.perm_insertionSort paramLE qs).symm
  exact List.eq_of_perm_of_sorted hp (pairwise_strict_of_sorted hnd)
    (pairwise_strict_of_sorted hndq)

/-- C6: For every base URL and every parameter dictionary,
create_request_url appends the query parameters in ascending key order
regardless of insertion order, omits entirely every parameter whose
value is falsy-empty (None, empty string, zero, False) rather than
encoding it as empty, and is deterministic for a given input: the result
is the base URL followed by the question-mark-and-ampersand rendering of
the key-sorted non-falsy parameters, that kept parameter list is
ascending by key, and any reordering of a duplicate-free parameter
dictionary produces the identical URL. -/
theorem claim_C6 (url : String) (ps : List (String × PyVal)) :
    create_request_url url (Option.some ps) =
      url ++ querySuffix (((List.insertionSort paramLE ps).filter
        (fun kv => !kv.2.falsy)).map kvString) ∧
    ((List.insertionSort paramLE ps).filter (fun kv => !kv.2.falsy)).Pairwise
      paramLE ∧
    ∀ qs : List (String × PyVal), ps.Perm qs → (ps.map Prod.fst).Nodup →
      create_request_url url (Option.some ps) =
        create_request_url url (Option.some qs) := by
  have hmain : ∀ l : List (String × PyVal),
      create_request_url url (Option.some l) =
        url ++ querySuffix (((List.insertionSort paramLE l).filter
          (fun kv => !kv.2.falsy)).map kvString) := by
    intro l
    match l with
    | [] => simp [create_request_url, querySuffix]
    | p :: rest =>
      simp only [create_request_url, List.isEmpty_cons, Bool.false_eq_true,
        if_false]
      exact appendParams_true _ url
  refine ⟨hmain ps, ?_, ?_⟩
  · exact (List.sorted_insertionSort paramLE ps).filter _
  · intro qs hperm hnd
    rw [hmain ps, hmain qs, insertionSort_eq_of_perm hperm hnd]

/-- C6 witness: the three conjuncts instantiated at URL u and the
parameter list b=2, a=x, c=None, reordered to a=x, c=None, b=2. -/
theorem claim_C6_witness :
    create_request_url "u"
        (Option.some [("b", PyVal.int 2), ("a", PyVal.str "x"),
          ("c", PyVal.none)]) =
      "u" ++ querySuffix (((List.insertionSort paramLE
        [("b", PyVal.int 2), ("a", PyVal.str "x"), ("c", PyVal.none)]).filter
          (fun kv => !kv.2.falsy)).map kvString) ∧
    create_request_url "u"
        (Option.some [("b", PyVal.int 2), ("a", PyVal.str "x"),
          ("c", PyVal.none)]) =
      create_request_url "u"
        (Option.some [("a", PyVal.str "x"), ("c", PyVal.none),
          ("b", PyVal.int 2)]) :=
  ⟨(claim_C6 "u" [("b", PyVal.int 2), ("a", PyVal.str "x"),
      ("c", PyVal.none)]).1,
   (claim_C6 "u" [("b", PyVal.int 2), ("a", PyVal.str "x"),
      ("c", PyVal.none)]).2.2
     [("a", PyVal.str "x"), ("c", PyVal.none), ("b", PyVal.int 2)]
     (by decide) (by decide)⟩

/-- C10: create_request_url with a None parameter dictionary, an empty
dictionary, or a dictionary whose values are all falsy returns the input
URL unchanged. -/
theorem claim_C10 (url : String) :
    create_request_url url Option.none = url ∧
    create_request_url url (Option.some []) = url ∧
    ∀ ps : List (String × PyVal), (∀ kv ∈ ps, kv.2.falsy = true) →
      create_request_url url (Option.some ps) = url := by
  refine ⟨rfl, rfl, ?_⟩
  intro ps hall
  match ps with
  | [] => rfl
  | p :: rest =>
    simp only [create_request_url, List.isEmpty_cons, Bool.false_eq_true,
      if_false]
    rw [appendParams_true]
    have hnil : (List.insertionSort paramLE (p :: rest)).filter
        (fun kv => !kv.2.falsy) = [] := by
      rw [List.filter_eq_nil_iff]
      intro kv hkv
      have : kv ∈ p :: rest := (List.mem_insertionSort paramLE).mp hkv
      simp [hall kv this]
    rw [hnil]
    simp [querySuffix]

/-- C10 witness: the all-falsy case instantiated at a concrete
dictionary holding None, the empty string, zero and False. -/
theorem claim_C10_witness :
    create_request_url "base"
      (Option.some [("a", PyVal.none), ("b", PyVal.str ""),
        ("c", PyVal.int 0), ("d", PyVal.bool false)]) = "base" :=
  (claim_C10 "base").2.2
    [("a", PyVal.none), ("b", PyVal.str ""), ("c", PyVal.int 0),
      ("d", PyVal.bool false)]
    (by decide)

/-- C7: For every ordered sequence of transaction records passed to
create_transactions, the submitted body contains, for each record in
order, exactly those fields whose value is not None, with absent fields
omitted; fields holding present-but-falsy values (empty string, zero,
False) are retained because only the value None is stripped. -/
theorem claim_C7 (ts : List (List (String × PyVal))) :
    create_transactions_body ts =
      ts.map (fun t => t.filter (fun kv => kv.2 ≠ PyVal.none)) ∧
    ∀ (t : List (String × PyVal)) (kv : String × PyVal),
      kv ∈ t.filter (fun kv => kv.2 ≠ PyVal.none) ↔
        kv ∈ t ∧ kv.2 ≠ PyVal.none := by
  constructor
  · induction ts with
    | nil => rfl
    | cons t rest ih => simp [create_transactions_body, ih]
  · intro t kv
    simp [List.mem_filter]

/-- C1: The candidate-new set computed by the sync orchestrator is
exactly the normalized forms of the bank transactions whose source id is
absent from the existing import identifiers, in their original order;
in particular, with existing import ids a and b and bank transactions
with ids a, c, d, the result is the normalized c and d in that order. -/
theorem claim_C1 (aid : String) (payees : List (String × String))
    (cats ycats ncats : List (String × String))
    (ids : List (Option String)) (txs : List N26Transaction) :
    new_transactions aid payees cats ycats ncats ids txs =
      (txs.filter (fun t => Option.some t.id ∉ ids)).map
        (convert_n26_transaction aid payees cats ycats ncats) ∧
    ∀ ta tc td : N26Transaction, ta.id = "a" → tc.id = "c" → td.id = "d" →
      new_transactions aid payees cats ycats ncats
          [Option.some "a", Option.some "b"] [ta, tc, td] =
        [convert_n26_transaction aid payees cats ycats ncats tc,
         convert_n26_transaction aid payees cats ycats ncats td] := by
  have hmain : ∀ (ids : List (Option String)) (txs : List N26Transaction),
      new_transactions aid payees cats ycats ncats ids txs =
        (txs.filter (fun t => Option.some t.id ∉ ids)).map
          (convert_n26_transaction aid payees cats ycats ncats) := by
    intro ids txs
    induction txs with
    | nil => rfl
    | cons t rest ih =>
      by_cases hmem : Option.some t.id ∈ ids
      · simp [new_transactions, hmem, ih]
      · simp [new_transactions, hmem, ih]
  refine ⟨hmain ids txs, ?_⟩
  intro ta tc td hta htc htd
  rw [hmain]
  simp [List.filter, hta, htc, htd]

/-- C1 witness: the dedup example instantiated with concrete
transactions carrying ids a, c and d. -/
theorem claim_C1_witness :
    new_transactions "acct" [] [] [] [] [Option.some "a", Option.some "b"]
        [⟨"a", 0, 1, Option.none, Option.none, Option.none, Option.none⟩,
         ⟨"c", 0, 2, Option.none, Option.none, Option.none, Option.none⟩,
         ⟨"d", 0, 3, Option.none, Option.none, Option.none, Option.none⟩] =
      [convert_n26_transaction "acct" [] [] [] []
         ⟨"c", 0, 2, Option.none, Option.none, Option.none, Option.none⟩,
       convert_n26_transaction "acct" [] [] [] []
         ⟨"d", 0, 3, Option.none, Option.none, Option.none, Option.none⟩] :=
  (claim_C1 "acct" [] [] [] [] [Option.some "a", Option.some "b"] []).2
    ⟨"a", 0, 1, Option.none, Option.none, Option.none, Option.none⟩
    ⟨"c", 0, 2, Option.none, Option.none, Option.none, Option.none⟩
    ⟨"d", 0, 3, Option.none, Option.none, Option.none, Option.none⟩
    rfl rfl rfl

/-- C2: The normalized amount is the source amount multiplied by 1000
and rounded toward positive infinity to an integer: it is an upper
integer bound of amount*1000 and the least such bound, and in
particular a source amount of 12.345 normalizes to 12345 while 12.3451
normalizes to 12346. -/
theorem claim_C2 (aid : String) (payees : List (String × String))
    (cats ycats ncats : List (String × String)) (t : N26Transaction) :
    ((t.amount * 1000 : ℚ) ≤
      ((convert_n26_transaction aid payees cats ycats ncats t).amount : ℚ)) ∧
    (∀ z : ℤ, (t.amount * 1000 : ℚ) ≤ (z : ℚ) →
      (convert_n26_transaction aid payees cats ycats ncats t).amount ≤ z) ∧
    (t.amount = 12.345 →
      (convert_n26_transaction aid payees cats ycats ncats t).amount = 12345) ∧
    (t.amount = 12.3451 →
      (convert_n26_transaction aid payees cats ycats ncats t).amount = 12346) := by
  have hamt : (convert_n26_transaction aid payees cats ycats ncats t).amount =
      Int.ceil (t.amount * 1000) := rfl
  refine ⟨?_, ?_, ?_, ?_⟩
  · rw [hamt]; exact Int.le_ceil _
  · intro z hz
    rw [hamt]
    exact Int.ceil_le.mpr hz
  · intro h
    rw [hamt, h, Int.ceil_eq_iff] <;> norm_num
  · intro h
    rw [hamt, h, Int.ceil_eq_iff] <;> norm_num

/-- C2 witness: amounts 12.345 and 12.3451 on a concrete transaction. -/
theorem claim_C2_witness :
    (convert_n26_transaction "acct" [] [] [] []
        ⟨"x", 0, 12.345, Option.none, Option.none, Option.none,
          Option.none⟩).amount = 12345 ∧
    (convert_n26_transaction "acct" [] [] [] []
        ⟨"y", 0, 12.3451, Option.none, Option.none, Option.none,
          Option.none⟩).amount = 12346 :=
  ⟨(claim_C2 "acct" [] [] [] []
      ⟨"x", 0, 12.345, Option.none, Option.none, Option.none,
        Option.none⟩).2.2.1 rfl,
   (claim_C2 "acct" [] [] [] []
      ⟨"y", 0, 12.3451, Option.none, Option.none, Option.none,
        Option.none⟩).2.2.2 rfl⟩

/-- C3: validate_token returns true exactly when the record has a
recorded expiry strictly in the future and a non-empty access-token
value; consequently a record whose expiry is one second in the past is
invalid even with a non-empty access token, and a record with a future
expiry but an empty access-token string is invalid. -/
theorem claim_C3 (now : ℚ) (td : TokenData) :
    (validate_token now td = true ↔
      (∃ e, td.expiration_time = Option.some e ∧ now < e) ∧
      ∃ s, td.access_token = Option.some s ∧ s ≠ "") ∧
    (∀ e s, td.expiration_time = Option.some e → e = now - 1 →
      td.access_token = Option.some s → validate_token now td = false) ∧
    (td.access_token = Option.some "" → validate_token now td = false) := by
  obtain ⟨e?, a?, r?⟩ := td
  refine ⟨?_, ?_, ?_⟩
  · cases e? with
    | none => simp [validate_token]
    | some e =>
      cases a? with
      | none =>
        by_cases he : now ≥ e <;> simp [validate_token, he]
      | some s =>
        by_cases he : now ≥ e
        · simp [validate_token, he]
        · simp only [validate_token, he, if_false, bne_iff_ne]
          constructor
          · intro hs
            exact ⟨⟨e, rfl, lt_of_not_ge he⟩, ⟨s, rfl, hs⟩⟩
          · rintro ⟨-, ⟨s', hs', hne⟩⟩
            cases hs'
            exact hne
  · intro e s hee heq has
    cases hee
    cases has
    have : now ≥ e := by rw [heq]; linarith
    simp [validate_token, this]
  · intro ha
    cases ha
    cases e? with
    | none => simp [validate_token]
    | some e => by_cases he : now ≥ e <;> simp [validate_token, he]

/-- C3 witness: at clock 100, expiry 99 with token t is invalid, expiry
101 with the empty token is invalid, and expiry 101 with token t is
valid. -/
theorem claim_C3_witness :
    validate_token 100
        ⟨Option.some 99, Option.some "t", Option.none⟩ = false ∧
    validate_token 100
        ⟨Option.some 101, Option.some "", Option.none⟩ = false ∧
    validate_token 100
        ⟨Option.some 101, Option.some "t", Option.none⟩ = true :=
  ⟨(claim_C3 100 ⟨Option.some 99, Option.some "t", Option.none⟩).2.1 99 "t"
      rfl (by norm_num) rfl,
   (claim_C3 100 ⟨Option.some 101, Option.some "", Option.none⟩).2.2 rfl,
   (claim_C3 100 ⟨Option.some 101, Option.some "t", Option.none⟩).1.mpr
     ⟨⟨101, rfl, by norm_num⟩, ⟨"t", rfl, by decide⟩⟩⟩

/-- C4: The normalizer performs the three-step chained category lookup:
when every link resolves the output carries the resolved category id and
approved = true; when any link is missing (no category field, or a miss
at any of the three maps) the output carries no category id and approved
= false.  The normalizer is a total function, so no error is raised in
either case. -/
theorem claim_C4 (aid : String) (payees : List (String × String))
    (cats ycats ncats : List (String × String)) (t : N26Transaction) :
    (∀ c n g y, t.category = Option.some c →
      ncats.lookup c = Option.some n → cats.lookup n = Option.some g →
      ycats.lookup g = Option.some y →
      (convert_n26_transaction aid payees cats ycats ncats t).category_id =
          Option.some y ∧
        (convert_n26_transaction aid payees cats ycats ncats t).approved =
          Option.some true) ∧
    (t.category = Option.none →
      (convert_n26_transaction aid payees cats ycats ncats t).category_id =
          Option.none ∧
        (convert_n26_transaction aid payees cats ycats ncats t).approved =
          Option.some false) ∧
    (∀ c, t.category = Option.some c → ncats.lookup c = Option.none →
      (convert_n26_transaction aid payees cats ycats ncats t).category_id =
          Option.none ∧
        (convert_n26_transaction aid payees cats ycats ncats t).approved =
          Option.some false) ∧
    (∀ c n, t.category = Option.some c → ncats.lookup c = Option.some n →
      cats.lookup n = Option.none →
      (convert_n26_transaction aid payees cats ycats ncats t).category_id =
          Option.none ∧
        (convert_n26_transaction aid payees cats ycats ncats t).approved =
          Option.some false) ∧
    (∀ c n g, t.category = Option.some c → ncats.lookup c = Option.some n →
      cats.lookup n = Option.some g → ycats.lookup g = Option.none →
      (convert_n26_transaction aid payees cats ycats ncats t).category_id =
          Option.none ∧
        (convert_n26_transaction aid payees cats ycats ncats t).approved =
          Option.some false) := by
  refine ⟨?_, ?_, ?_, ?_, ?_⟩
  · intro c n g y hc hn hg hy
    constructor <;> simp [convert_n26_transaction, hc, hn, hg, hy]
  · intro hc
    constructor <;> simp [convert_n26_transaction, hc]
  · intro c hc hn
    constructor <;> simp [convert_n26_transaction, hc, hn]
  · intro c n hc hn hg
    constructor <;> simp [convert_n26_transaction, hc, hn, hg]
  · intro c n g hc hn hg hy
    constructor <;> simp [convert_n26_transaction, hc, hn, hg, hy]

/-- C4 witness: with bank-category map 100 to Groceries, external map
Groceries to Food, budget categories Food to cat-1, a transaction with
category 100 resolves to cat-1 approved, and one with category 999
resolves to no category unapproved. -/
theorem claim_C4_witness :
    ((convert_n26_transaction "acct" [] [("Groceries", "Food")]
        [("Food", "cat-1")] [("100", "Groceries")]
        ⟨"x", 0, 1, Option.some "100", Option.none, Option.none,
          Option.none⟩).category_id = Option.some "cat-1" ∧
      (convert_n26_transaction "acct" [] [("Groceries", "Food")]
        [("Food", "cat-1")] [("100", "Groceries")]
        ⟨"x", 0, 1, Option.some "100", Option.none, Option.none,
          Option.none⟩).approved = Option.some true) ∧
    ((convert_n26_transaction "acct" [] [("Groceries", "Food")]
        [("Food", "cat-1")] [("100", "Groceries")]
        ⟨"y", 0, 1, Option.some "999", Option.none, Option.none,
          Option.none⟩).category_id = Option.none ∧
      (convert_n26_transaction "acct" [] [("Groceries", "Food")]
        [("Food", "cat-1")] [("100", "Groceries")]
        ⟨"y", 0, 1, Option.some "999", Option.none, Option.none,
          Option.none⟩).approved = Option.some false) :=
  ⟨(claim_C4 "acct" [] [("Groceries", "Food")] [("Food", "cat-1")]
      [("100", "Groceries")]
      ⟨"x", 0, 1, Option.some "100", Option.none, Option.none,
        Option.none⟩).1 "100" "Groceries" "Food" "cat-1" rfl (by decide)
      (by decide) (by decide),
   (claim_C4 "acct" [] [("Groceries", "Food")] [("Food", "cat-1")]
      [("100", "Groceries")]
      ⟨"y", 0, 1, Option.some "999", Option.none, Option.none,
        Option.none⟩).2.2.1 "999" rfl (by decide)⟩

/-- C8 counterexample: with one budget b1 and one account a1, running
the validation segment with the correct budget id b1 but unknown account
id a2 does not continue to the subsequent steps: the account selection
subscript raises IndexError and the run aborts. -/
theorem claim_C8_counterexample :
    (main_validate_and_select [⟨"b1", "Budget"⟩] [⟨"a1", "Account"⟩]
        "b1" "a2").2 = Except.error PyRuntimeError.indexError := by
  decide

/-- C8 amended: an unknown budget id prints the valid options and the
run continues (whenever the account id is known the segment succeeds,
with the console output of both checks printed), but an unknown account
id prints the valid options and then the run aborts with an IndexError
at the account-selection subscript immediately after validation.  The
first two conjuncts give the option line of every budget or account in
the printed check output; the last two give the outcome together with
the full printed output for a known and for an unknown account id. -/
theorem claim_C8 (budgets : List YNABBudget) (accounts : List YNABAccount)
    (bid aid : String) :
    (bid ∉ budgets.map (fun x => x.id) →
      ∀ b ∈ budgets,
        (" - " ++ b.name ++ " - " ++ b.id) ∈ budget_check_output budgets bid) ∧
    (aid ∉ accounts.map (fun x => x.id) →
      ∀ a ∈ accounts,
        (" - " ++ a.name ++ " - " ++ a.id) ∈
          account_check_output accounts aid) ∧
    (aid ∈ accounts.map (fun x => x.id) →
      ∃ acc, main_validate_and_select budgets accounts bid aid =
        (budget_check_output budgets bid ++ account_check_output accounts aid,
          Except.ok acc)) ∧
    (aid ∉ accounts.map (fun x => x.id) →
      main_validate_and_select budgets accounts bid aid =
        (budget_check_output budgets bid ++ account_check_output accounts aid,
          Except.error PyRuntimeError.indexError)) := by
  refine ⟨?_, ?_, ?_, ?_⟩
  · intro hbid b hb
    simp only [budget_check_output, hbid, if_false]
    right; right; right
    exact List.mem_map_of_mem (fun b => " - " ++ b.name ++ " - " ++ b.id) hb
  · intro haid a ha
    simp only [account_check_output, haid, if_false]
    right; right; right
    exact List.mem_map_of_mem (fun a => " - " ++ a.name ++ " - " ++ a.id) ha
  · intro haid
    obtain ⟨a, ha, hid⟩ := List.mem_map.mp haid
    have hne : accounts.filter (fun i => i.id == aid) ≠ [] := by
      rw [Ne, List.filter_eq_nil_iff]
      push_neg
      exact ⟨a, ha, by simp [hid]⟩
    rcases hf : accounts.filter (fun i => i.id == aid) with _ | ⟨acc, rest⟩
    · exact absurd hf hne
    · exact ⟨acc, by simp [main_validate_and_select, hf]⟩
  · intro haid
    have hf : accounts.filter (fun i => i.id == aid) = [] := by
      rw [List.filter_eq_nil_iff]
      intro a ha
      simp only [beq_iff_eq]
      intro hid
      exact haid (List.mem_map.mpr ⟨a, ha, hid⟩)
    simp [main_validate_and_select, hf]

/-- C8 witness: at one budget b1 and one account a1, an unknown budget
id with the known account id a1 still yields a successful segment that
prints the budget option line, while an unknown account id zz prints
the account option line and yields IndexError together with the full
printed output of both checks. -/
theorem claim_C8_witness :
    ((" - " ++ "Budget" ++ " - " ++ "b1") ∈
      budget_check_output [⟨"b1", "Budget"⟩] "bad") ∧
    ((" - " ++ "Account" ++ " - " ++ "a1") ∈
      account_check_output [⟨"a1", "Account"⟩] "zz") ∧
    (∃ acc,
      main_validate_and_select [⟨"b1", "Budget"⟩] [⟨"a1", "Account"⟩]
          "bad" "a1" =
        (budget_check_output [⟨"b1", "Budget"⟩] "bad" ++
          account_check_output [⟨"a1", "Account"⟩] "a1", Except.ok acc)) ∧
    main_validate_and_select [⟨"b1", "Budget"⟩] [⟨"a1", "Account"⟩]
        "bad" "zz" =
      (budget_check_output [⟨"b1", "Budget"⟩] "bad" ++
        account_check_output [⟨"a1", "Account"⟩] "zz",
        Except.error PyRuntimeError.indexError) :=
  ⟨(claim_C8 [⟨"b1", "Budget"⟩] [] "bad" "x").1 (by decide)
      ⟨"b1", "Budget"⟩ (by decide),
   (claim_C8 [] [⟨"a1", "Account"⟩] "x" "zz").2.1 (by decide)
      ⟨"a1", "Account"⟩ (by decide),
   (claim_C8 [⟨"b1", "Budget"⟩] [⟨"a1", "Account"⟩] "bad" "a1").2.2.1
      (by decide),
   (claim_C8 [⟨"b1", "Budget"⟩] [⟨"a1", "Account"⟩] "bad" "zz").2.2.2
      (by decide)⟩

/-- C9: an input stream with no line starting with the header marker
makes either CSV reader return an empty result with no error, because
the table parse operates on an empty buffer. -/
theorem claim_C9 (lines : List String) :
    ((∀ l ∈ lines, pyStartsWith l "\"Buchungstag" = false) →
      dkb_read_transactions lines = Except.ok []) ∧
    ((∀ l ∈ lines, pyStartsWith l "\"Buchung" = false ∧
        pyStartsWith l "Buchung" = false) →
      ing_read_transactions lines = Except.ok []) := by
  constructor
  · intro h
    have hnil : dkb_filter_lines lines = [] := by
      induction lines with
      | nil => rfl
      | cons l ls ih =>
        simp only [dkb_filter_lines, h l (List.mem_cons_self l ls), if_false]
        exact ih fun x hx => h x (List.mem_cons_of_mem l hx)
    rw [dkb_read_transactions, hnil]
    rfl
  · intro h
    have hnil : ing_filter_lines lines = [] := by
      induction lines with
      | nil => rfl
      | cons l ls ih =>
        have h1 := h l (List.mem_cons_self l ls)
        simp only [ing_filter_lines, h1.1, h1.2, Bool.or_self, if_false]
        exact ih fun x hx => h x (List.mem_cons_of_mem l hx)
    rw [ing_read_transactions, hnil]
    rfl

/-- C9 witness: both readers on a two-line stream without a header
marker. -/
theorem claim_C9_witness :
    dkb_read_transactions ["junk", "no header"] = Except.ok [] ∧
    ing_read_transactions ["junk", "no header"] = Except.ok [] :=
  ⟨(claim_C9 ["junk", "no header"]).1 (by decide),
   (claim_C9 ["junk", "no header"]).2 (by decide)⟩

/-- C5: evaluation of the readers at concrete exports.  The DKB reader,
on a well-formed export with one money row, raises AttributeError from
the attribute assignment transaction.Outflow on a dict value instead of
producing a record with Outflow set; the ING reader, on an export with a
blank amount field, raises InvalidOperation from decimal.Decimal instead
of excluding the row.  Both contradict the claimed per-row contract. -/
theorem claim_C5_code_evaluation :
    dkb_read_transactions
        ["junk",
          String.append "\"Buchungstag\";\"Wertstellung\";\"Auftraggeber / Beg"
            "ünstigter\";\"Verwendungszweck\";\"Betrag (EUR)\"",
          "\"01.02.2020\";\"02.02.2020\";\"ACME\";\"Rent\";\"-1,00\""] =
      Except.error PyRuntimeError.attributeError ∧
    ing_read_transactions
        ["junk", "Buchung;Auftraggeber/Empfänger;Verwendungszweck;Betrag",
          "01.02.2020;ACME;Rent;"] =
      Except.error PyRuntimeError.invalidOperation := by
  constructor
  · have h : dictReader ';' (dkb_filter_lines
        ["junk",
          String.append "\"Buchungstag\";\"Wertstellung\";\"Auftraggeber / Beg"
            "ünstigter\";\"Verwendungszweck\";\"Betrag (EUR)\"",
          "\"01.02.2020\";\"02.02.2020\";\"ACME\";\"Rent\";\"-1,00\""]) =
        [[("Buchungstag", "01.02.2020"), ("Wertstellung", "02.02.2020"),
          ("Auftraggeber / Begünstigter", "ACME"),
          ("Verwendungszweck", "Rent"), ("Betrag (EUR)", "-1,00")]] := by
      decide
    rw [dkb_read_transactions, h]
    simp only [dkb_process, dkb_process_record, ite_self]
    decide
  · decide

end YnabSync
